import Mathlib

/-!
Shallow embedding of the translation-pipeline core of the
`persian-to-english` Chrome extension (background service, error handler,
Whisper/Translation/TTS client modules), together with proofs checking the
specification's claims against the embedded code.

Sources embedded:
  * `src/modules/errorHandler.js`   — `retryWithBackoff`, `calculateDelay`,
    `trackError` / `isFeatureDisabled`, `handleApiError`, `handleAudioError`,
    `getUserFriendlyMessage`, `getRetryStrategy`
  * `src/modules/constants.js` (src/unnamed/part_001) — `RETRY_CONFIG`,
    `DEFAULT_SETTINGS`
  * `src/modules/whisperAPI.js`     — `detectLanguage`
  * `src/modules/translationAPI.js` — `needsTranslation`, `addToHistory`
  * `src/background.js`             — `processAudioChunk`,
    `determineTranslationDirection`, `updateSettings`, `startHealthCheck`
-/

namespace P2E

/-- A JavaScript `Error` value, reduced to the two fields the embedded code
inspects: `name` and `message`. -/
structure JsError where
  name : String
  message : String
deriving DecidableEq, Repr

/-- `RETRY_CONFIG` from `src/modules/constants.js`: the four numeric fields
read by `ErrorHandler`'s constructor. -/
structure RetryConfig where
  maxRetries : Nat
  initialDelay : Nat
  maxDelay : Nat
  backoffMultiplier : Nat
deriving DecidableEq, Repr

/-- `RETRY_CONFIG = { MAX_RETRIES: 3, INITIAL_DELAY: 1000, MAX_DELAY: 10000,
BACKOFF_MULTIPLIER: 2 }` (`src/modules/constants.js`). -/
def RETRY_CONFIG : RetryConfig :=
  { maxRetries := 3, initialDelay := 1000, maxDelay := 10000, backoffMultiplier := 2 }

/-- `ErrorHandler.calculateDelay(attempt)` from `src/modules/errorHandler.js`:
`Math.min(this.initialDelay * Math.pow(this.backoffMultiplier, attempt), this.maxDelay)`. -/
def calculateDelay (cfg : RetryConfig) (attempt : Nat) : Nat :=
  min (cfg.initialDelay * cfg.backoffMultiplier ^ attempt) cfg.maxDelay

/-- Outcome of one run of `retryWithBackoff`: the final result (the value
returned, or the error re-thrown untouched), the total number of times the
wrapped operation was invoked, and the backoff delays slept between attempts. -/
structure RetryOutcome (α : Type) where
  result : Except JsError α
  attempts : Nat
  delays : List Nat
deriving Repr

/-- The loop body of `ErrorHandler.retryWithBackoff` (`errorHandler.js`
lines 13–35), starting at attempt index `attempt` with `remaining` further
attempts allowed after this one.  The operation is modelled as a function
from the attempt index to that attempt's outcome.  On success the value is
returned; on failure with no attempts remaining (`attempt === maxRetries`)
the caught error itself is re-thrown; otherwise the loop sleeps
`calculateDelay(attempt)` and retries. -/
def retryFrom {α : Type} (op : Nat → Except JsError α) (cfg : RetryConfig) :
    Nat → Nat → RetryOutcome α
  | attempt, 0 =>
    match op attempt with
    | .ok v => { result := .ok v, attempts := 1, delays := [] }
    | .error e => { result := .error e, attempts := 1, delays := [] }
  | attempt, remaining + 1 =>
    match op attempt with
    | .ok v => { result := .ok v, attempts := 1, delays := [] }
    | .error _ =>
      let rest := retryFrom op cfg (attempt + 1) remaining
      { result := rest.result,
        attempts := rest.attempts + 1,
        delays := calculateDelay cfg attempt :: rest.delays }

/-- `ErrorHandler.retryWithBackoff(fn, context, maxRetries = this.maxRetries)`:
the loop `for (attempt = 0; attempt <= maxRetries; attempt++)`.  The retry
loop never inspects the caught error's type or message — every failure is
retried the same way until the attempt budget runs out. -/
def retryWithBackoff {α : Type} (op : Nat → Except JsError α)
    (cfg : RetryConfig) : RetryOutcome α :=
  retryFrom op cfg 0 cfg.maxRetries

/-- A `{ maxRetries, delay }` record from `ErrorHandler.getRetryStrategy`. -/
structure RetryStrategy where
  maxRetries : Nat
  delay : Nat
deriving DecidableEq, Repr

/-- `ErrorHandler.getRetryStrategy(errorType)` (`errorHandler.js` lines
201–212).  Note: nothing in the repository ever calls this function. -/
def getRetryStrategy (errorType : String) : RetryStrategy :=
  if errorType = "AUTH_ERROR" then { maxRetries := 0, delay := 0 }
  else if errorType = "RATE_LIMIT" then { maxRetries := 3, delay := 5000 }
  else if errorType = "NETWORK_ERROR" then { maxRetries := 5, delay := 1000 }
  else if errorType = "AUDIO_ERROR" then { maxRetries := 2, delay := 2000 }
  else if errorType = "STORAGE_ERROR" then { maxRetries := 3, delay := 1000 }
  else { maxRetries := 2, delay := 1000 }

/-- The error a backend client raises on an HTTP 401 response
(`Backend API error: ${status} - ...` wrapped by the client's catch). -/
def authError : JsError :=
  { name := "Error", message := "Backend API error: 401 - Unauthorized" }

/-! ## Language detection (`src/modules/whisperAPI.js`, `detectLanguage`)

JavaScript strings are sequences of UTF-16 code units; every character class
below lies in the Basic Multilingual Plane, where code units coincide with
Unicode scalar values, so the embedding tests the `Char`s of the Lean
string (`String.data`). -/

/-- The Arabic-script class of `detectLanguage`:
`[؀-ۿݐ-ݿࢠ-ࣿﭐ-﷿ﹰ-﻿]`.
Note: the Hebrew block U+0590–U+05FF is NOT part of this class. -/
def isArabicScriptChar (c : Char) : Bool :=
  (0x0600 ≤ c.toNat && c.toNat ≤ 0x06FF) ||
  (0x0750 ≤ c.toNat && c.toNat ≤ 0x077F) ||
  (0x08A0 ≤ c.toNat && c.toNat ≤ 0x08FF) ||
  (0xFB50 ≤ c.toNat && c.toNat ≤ 0xFDFF) ||
  (0xFE70 ≤ c.toNat && c.toNat ≤ 0xFEFF)

/-- The Persian-specific class:
`[کگچژیڠھہے۔ە…۹]`
(the last run is the contiguous listing U+06D5 through U+06F9). -/
def isPersianChar (c : Char) : Bool :=
  [0x06A9, 0x06AF, 0x0686, 0x0698, 0x06CC, 0x06A0, 0x06BE, 0x06C1,
   0x06D2, 0x06D4].contains c.toNat ||
  (0x06D5 ≤ c.toNat && c.toNat ≤ 0x06F9)

/-- The Hebrew class: `[֐-׿‏‎]`. -/
def isHebrewChar (c : Char) : Bool :=
  (0x0590 ≤ c.toNat && c.toNat ≤ 0x05FF) ||
  c.toNat = 0x200F || c.toNat = 0x200E

/-- The Kurdish-specific class: the contiguous listing U+06B5 through U+06EF. -/
def isKurdishChar (c : Char) : Bool :=
  0x06B5 ≤ c.toNat && c.toNat ≤ 0x06EF

/-- The Turkish class: `[çğıöşüÇĞIİÖŞÜ]` (which includes the plain Latin
capital letter I, the uppercase of Turkish dotless ı). -/
def isTurkishChar (c : Char) : Bool :=
  "çğıöşüÇĞIİÖŞÜ".data.contains c

/-- `WhisperAPI.detectLanguage(text)` (`whisperAPI.js` lines 59–90): an empty
(falsy) string is `en`; a string with an Arabic-script character is refined
to `fa` / `he` / `ku` by the specific classes, defaulting to `ar`; otherwise
a Turkish-class character gives `tr`; else `en`. -/
def detectLanguage (text : String) : String :=
  if text.data.isEmpty then "en"
  else if text.data.any isArabicScriptChar then
    if text.data.any isPersianChar then "fa"
    else if text.data.any isHebrewChar then "he"
    else if text.data.any isKurdishChar then "ku"
    else "ar"
  else if text.data.any isTurkishChar then "tr"
  else "en"

/-! ## Translation policy (`src/modules/translationAPI.js`) -/

/-- The JavaScript `\s` class (also the set removed by `String.trim`):
space, tab, line terminators, and the Unicode space separators. -/
def isJsWhitespace (c : Char) : Bool :=
  [0x09, 0x0A, 0x0B, 0x0C, 0x0D, 0x20, 0xA0, 0x1680,
   0x2028, 0x2029, 0x202F, 0x205F, 0x3000, 0xFEFF].contains c.toNat ||
  (0x2000 ≤ c.toNat && c.toNat ≤ 0x200A)

/-- `text.trim().length === 0`: every character of the string is whitespace. -/
def trimmedEmpty (text : String) : Bool :=
  text.data.all isJsWhitespace

/-- The character class of the `englishPattern` regex
`^[a-zA-Z\s.,!?;:'"()-]+$`: ASCII letters, `\s` whitespace, and the
punctuation `. , ! ? ; : 0x27 0x22 ( ) -` (0x27 is the apostrophe and 0x22
the double quote). -/
def isEnglishPatternChar (c : Char) : Bool :=
  (0x61 ≤ c.toNat && c.toNat ≤ 0x7A) ||
  (0x41 ≤ c.toNat && c.toNat ≤ 0x5A) ||
  isJsWhitespace c ||
  [0x2E, 0x2C, 0x21, 0x3F, 0x3B, 0x3A, 0x27, 0x22, 0x28, 0x29, 0x2D].contains c.toNat

/-- `englishPattern.test(text)`: the regex `^[…]+$` matches exactly the
non-empty strings all of whose characters are in the class. -/
def englishPatternTest (text : String) : Bool :=
  !text.data.isEmpty && text.data.all isEnglishPatternChar

/-- `TranslationAPI.needsTranslation(text, targetLanguage)`
(`translationAPI.js` lines 143–155). -/
def needsTranslation (text targetLanguage : String) : Bool :=
  if trimmedEmpty text then false
  else if targetLanguage = "en" then !englishPatternTest text
  else true

/-! ## Direction resolution (`src/background.js`,
`determineTranslationDirection`) -/

/-- The settings snapshot fields the pipeline reads
(`DEFAULT_SETTINGS` shape from `src/modules/constants.js`). -/
structure Settings where
  sourceLanguage : String
  targetLanguage : String
  mockMode : Bool
  volume : ℚ
  bidirectionalMode : Bool
  autoDetectLanguage : Bool
  micDevice : String
deriving DecidableEq, Repr

/-- `DEFAULT_SETTINGS` from `src/modules/constants.js`. -/
def DEFAULT_SETTINGS : Settings :=
  { sourceLanguage := "ar", targetLanguage := "en", mockMode := true,
    volume := 4/5, bidirectionalMode := false, autoDetectLanguage := true,
    micDevice := "default" }

/-- `BackgroundService.determineTranslationDirection(detectedLanguage, text)`
(`background.js` lines 214–238); `this.currentSettings` is passed
explicitly.  The `text` parameter of the source function is unused. -/
def determineTranslationDirection (s : Settings) (detectedLanguage : String) :
    String × String :=
  if ["ar", "fa", "tr", "he", "ku"].contains detectedLanguage then
    (detectedLanguage, "en")
  else if detectedLanguage = "en" then
    ("en", s.sourceLanguage)
  else
    (s.sourceLanguage, s.targetLanguage)

/-! ## Error classification (`src/modules/errorHandler.js`) -/

/-- Substring test (`String.prototype.includes`): some contiguous run of
characters of `s` equals the characters of `pat`. -/
def containsSub (s pat : String) : Bool :=
  (List.range (s.data.length + 1)).any
    (fun i => (s.data.drop i).take pat.data.length == pat.data)

/-- The `{ type, message, action }` records returned by the
`ErrorHandler.handle*` classifiers. -/
structure ErrorInfo where
  type : String
  message : String
  action : String
deriving DecidableEq, Repr

/-- `ErrorHandler.handleApiError(error, apiName)` (`errorHandler.js` lines
75–107): classification by substrings of the error message. -/
def handleApiError (e : JsError) : ErrorInfo :=
  if containsSub e.message "401" || containsSub e.message "Unauthorized" then
    { type := "AUTH_ERROR", message := "API key is invalid or expired",
      action := "check_api_key" }
  else if containsSub e.message "429" || containsSub e.message "rate limit" then
    { type := "RATE_LIMIT", message := "API rate limit exceeded",
      action := "wait_and_retry" }
  else if containsSub e.message "network" || containsSub e.message "fetch" then
    { type := "NETWORK_ERROR", message := "Network connection failed",
      action := "check_connection" }
  else
    { type := "UNKNOWN_ERROR", message := e.message, action := "retry" }

/-- `ErrorHandler.handleAudioError(error, context)` (`errorHandler.js` lines
110–142): classification by the DOMException name.  It only classifies — it
never touches the `errorCounts` map. -/
def handleAudioError (e : JsError) : ErrorInfo :=
  if e.name = "NotAllowedError" then
    { type := "PERMISSION_ERROR", message := "Microphone permission denied",
      action := "request_permission" }
  else if e.name = "NotFoundError" then
    { type := "DEVICE_ERROR", message := "Microphone device not found",
      action := "check_device" }
  else if e.name = "NotReadableError" then
    { type := "DEVICE_ERROR",
      message := "Microphone is being used by another application",
      action := "close_other_apps" }
  else
    { type := "AUDIO_ERROR", message := e.message, action := "retry" }

/-- `ErrorHandler.getUserFriendlyMessage(errorInfo)` (`errorHandler.js`
lines 156–168). -/
def getUserFriendlyMessage (info : ErrorInfo) : String :=
  if info.type = "AUTH_ERROR" then
    "Please check your API keys in the extension settings"
  else if info.type = "RATE_LIMIT" then
    "API rate limit exceeded. Please wait a moment and try again"
  else if info.type = "NETWORK_ERROR" then
    "Network connection failed. Please check your internet connection"
  else if info.type = "PERMISSION_ERROR" then
    "Microphone permission denied. Please allow microphone access"
  else if info.type = "DEVICE_ERROR" then
    "Microphone device not found. Please check your audio settings"
  else if info.type = "STORAGE_ERROR" then
    "Failed to save settings. Please try again"
  else
    "An unexpected error occurred. Please try again"

/-! ## The per-chunk pipeline (`src/background.js`, `processAudioChunk`)

The chunk processor is an async method that re-reads
`this.currentSettings` at several points separated by `await` suspensions.
The embedding indexes those read points by the synchronous block they occur
in:

* block 0 — entry through the transcription call;
* block 1 — after the transcription promise resolves: the reads of
  `targetLanguage` (captured into a local), `autoDetectLanguage`,
  `bidirectionalMode` and `sourceLanguage` (inside
  `determineTranslationDirection`), and the `needsTranslation` check;
* block 2 — after the translation promise resolves (synthesis call);
* block 3 — after the synthesis promise resolves: the read of `volume`
  passed to `playAudio`;
* block 4 — after playback resolves: the read of `bidirectionalMode` for
  the `bidirectional` field of the emitted result.

A constant block-to-settings function models a run with no concurrent
`updateSettings`; a function that switches from one snapshot to another at
some block models an update landing mid-flight at an `await` boundary.
Stage outcomes (what each retried stage ultimately returns or throws) are
supplied as data, since the network is external. -/

/-- A transcription result `{ text, language, confidence }`
(`whisperAPI.js` `transcribe`). -/
structure Transcription where
  text : String
  language : String
  confidence : ℚ
deriving DecidableEq, Repr

/-- A translation result (`translationAPI.js` `translate`). -/
structure TranslationResult where
  translatedText : String
  confidence : ℚ
  sourceLanguage : String
  targetLanguage : String
deriving DecidableEq, Repr

/-- The success payload sent to the content script (`background.js` lines
197–204). -/
structure ResultEvent where
  originalText : String
  translatedText : String
  sourceLanguage : String
  targetLanguage : String
  confidence : ℚ
  bidirectional : Bool
deriving DecidableEq, Repr

/-- One message delivered to the result sink: a `TRANSLATION_RESULT` success
event or a `TRANSLATION_ERROR` event. -/
inductive SinkEvent where
  | result (r : ResultEvent)
  | error (message : String)
deriving DecidableEq, Repr

/-- Final outcomes of the four awaited stages of one chunk, after each
stage's retry wrapper has run: the value produced, or the error it ended up
throwing.  Synthesis and playback payloads are abstracted to `Unit`. -/
structure StageOutcomes where
  transcription : Except JsError Transcription
  translation : Except JsError TranslationResult
  synthesis : Except JsError Unit
  playback : Except JsError Unit

/-- Everything observable about one `processAudioChunk` run: the sink events
emitted, the `logError` entries recorded (context, error message), and the
clamped volume passed to `playAudio` when playback was attempted. -/
structure ChunkRun where
  events : List SinkEvent
  logs : List (String × String)
  playbackVolume : Option ℚ
deriving DecidableEq, Repr

/-- `playAudio`'s gain: `Math.max(0, Math.min(1, volume))`
(`elevenLabsTTS.js` line 129). -/
def clampVolume (v : ℚ) : ℚ :=
  let low := if 1 < v then 1 else v
  if low < 0 then 0 else low

/-- `background.js` lines 150–164: resolve the source/target pair from a
settings snapshot and the transcription — detected language from
script-detection when `autoDetectLanguage`, else the transcription's
language; then the bidirectional re-derivation when `bidirectionalMode`. -/
def resolveDirection (s : Settings) (t : Transcription) : String × String :=
  let detected := if s.autoDetectLanguage then detectLanguage t.text else t.language
  if s.bidirectionalMode then determineTranslationDirection s detected
  else (detected, s.targetLanguage)

/-- The catch-all at the bottom of `processAudioChunk` (lines 207–211):
`logError(error, 'processAudioChunk')`, classify with
`handleApiError(error, 'Translation Pipeline')`, send one error event with
the user-friendly message. -/
def catchChunkError (e : JsError) (vol : Option ℚ) : ChunkRun :=
  { events := [SinkEvent.error (getUserFriendlyMessage (handleApiError e))],
    logs := [("processAudioChunk", e.message)],
    playbackVolume := vol }

/-- `BackgroundService.processAudioChunk(audioBlob)` (`background.js` lines
130–212), with the settings read at block `i` given by `settingsAt i`. -/
def processAudioChunkAt (settingsAt : Nat → Settings) (o : StageOutcomes) :
    ChunkRun :=
  match o.transcription with
  | .error e => catchChunkError e none
  | .ok t =>
    if trimmedEmpty t.text then
      { events := [], logs := [], playbackVolume := none }
    else
      let s1 := settingsAt 1
      let dir := resolveDirection s1 t
      if needsTranslation t.text dir.2 then
        match o.translation with
        | .error e => catchChunkError e none
        | .ok tr =>
          match o.synthesis with
          | .error e => catchChunkError e none
          | .ok _ =>
            let vol := clampVolume (settingsAt 3).volume
            match o.playback with
            | .error e => catchChunkError e (some vol)
            | .ok _ =>
              { events := [SinkEvent.result
                  { originalText := t.text,
                    translatedText := tr.translatedText,
                    sourceLanguage := dir.1,
                    targetLanguage := dir.2,
                    confidence := t.confidence,
                    bidirectional := (settingsAt 4).bidirectionalMode }],
                logs := [],
                playbackVolume := some vol }
      else
        { events := [], logs := [], playbackVolume := none }

/-- `processAudioChunk` under a single stable settings snapshot (no
concurrent `updateSettings`). -/
def processAudioChunk (s : Settings) (o : StageOutcomes) : ChunkRun :=
  processAudioChunkAt (fun _ => s) o

/-- A partial settings object passed to `UPDATE_SETTINGS`; `updateSettings`
merges it over the current snapshot with object spread (`background.js`
lines 274–282). -/
structure SettingsPatch where
  sourceLanguage : Option String := none
  targetLanguage : Option String := none
  mockMode : Option Bool := none
  volume : Option ℚ := none
  bidirectionalMode : Option Bool := none
  autoDetectLanguage : Option Bool := none
  micDevice : Option String := none
deriving Repr

/-- `BackgroundService.updateSettings(settings)`:
`this.currentSettings = { ...this.currentSettings, ...settings }`. -/
def updateSettings (cur : Settings) (p : SettingsPatch) : Settings :=
  { sourceLanguage := p.sourceLanguage.getD cur.sourceLanguage,
    targetLanguage := p.targetLanguage.getD cur.targetLanguage,
    mockMode := p.mockMode.getD cur.mockMode,
    volume := p.volume.getD cur.volume,
    bidirectionalMode := p.bidirectionalMode.getD cur.bidirectionalMode,
    autoDetectLanguage := p.autoDetectLanguage.getD cur.autoDetectLanguage,
    micDevice := p.micDevice.getD cur.micDevice }

/-- The settings visible to each block when an `updateSettings` lands at the
`await` boundary between block `k` and block `k + 1`: blocks up to `k` read
the old snapshot, later blocks read the updated one. -/
def settingsSchedule (s0 s1 : Settings) (k : Nat) : Nat → Settings :=
  fun i => if i ≤ k then s0 else s1

/-- Stage outcomes of a run where transcription, translation and synthesis
succeed and playback fails while decoding (the error `playAudio` throws,
already wrapped by its own catch). -/
def playbackFailOutcomes : StageOutcomes :=
  { transcription := .ok
      { text := "مرحبا، كيف حالك؟", language := "ar", confidence := 1 },
    translation := .ok
      { translatedText := "Hello, how are you?", confidence := 9/10,
        sourceLanguage := "ar", targetLanguage := "en" },
    synthesis := .ok (),
    playback := .error
      { name := "Error", message := "Audio playback failed: decode error" } }

/-- Stage outcomes of a fully successful run. -/
def allOkOutcomes : StageOutcomes :=
  { transcription := .ok
      { text := "مرحبا، كيف حالك؟", language := "ar", confidence := 1 },
    translation := .ok
      { translatedText := "Hello, how are you?", confidence := 9/10,
        sourceLanguage := "ar", targetLanguage := "en" },
    synthesis := .ok (),
    playback := .ok () }

/-- A run whose transcript is already English; the later stages are given
failing outcomes to make it observable that they are never consulted when
translation is skipped. -/
def englishSkipOutcomes : StageOutcomes :=
  { transcription := .ok
      { text := "Hello, how are you?", language := "en", confidence := 1 },
    translation := .error authError,
    synthesis := .error authError,
    playback := .error authError }

/-- A settings update arriving mid-flight: switch bidirectional mode on and
lower the volume. -/
def midflightPatch : SettingsPatch :=
  { bidirectionalMode := some true, volume := some (1/4) }

/-! ## Error counters and the health check
(`src/modules/errorHandler.js` `trackError` / `isFeatureDisabled`,
`src/background.js` `startHealthCheck`) -/

/-- The `errorCounts` map of `ErrorHandler`, as an association list from
`` `${errorType}-${context}` `` keys to counts (newest binding first). -/
abbrev ErrorCounts := List (String × Nat)

/-- `this.errorCounts.get(key) || 0`. -/
def countFor (m : ErrorCounts) (key : String) : Nat :=
  (m.lookup key).getD 0

/-- `this.errorCounts.set(key, v)`. -/
def setCount (m : ErrorCounts) (key : String) (v : Nat) : ErrorCounts :=
  (key, v) :: m.filter (fun p => !(p.1 == key))

/-- `ErrorHandler.trackError(errorType, context)` (`errorHandler.js` lines
47–59): increment the count for the key and return `false` when the
pre-increment count exceeded 5.  No code in the repository ever calls this
function. -/
def trackError (m : ErrorCounts) (errorType context : String) :
    ErrorCounts × Bool :=
  let key := errorType ++ "-" ++ context
  let count := countFor m key
  (setCount m key (count + 1), !(decide (count > 5)))

/-- `ErrorHandler.isFeatureDisabled(errorType, context)` (`errorHandler.js`
lines 68–72). -/
def isFeatureDisabled (m : ErrorCounts) (errorType context : String) : Bool :=
  decide (countFor m (errorType ++ "-" ++ context) > 5)

/-- The `getStatus()` fields the health check reads from `AudioCapture`. -/
structure AudioStatus where
  isInitialized : Bool
  isCapturing : Bool
deriving DecidableEq, Repr

/-- What one health-check tick does: nothing, a stop + 1 s-cooldown +
restart cycle, or `stopTranslation` followed by one error event. -/
inductive HealthAction where
  | noop
  | restart
  | stopAndReport (message : String)
deriving DecidableEq, Repr

/-- One tick of the 30 s `startHealthCheck` interval (`background.js` lines
334–367): only acts while `isActive` with a live `audioCapture`; a
non-initialized or non-capturing status triggers restart and returns; only
then is the single counter for `('audio_error', 'health_check')`
consulted, and if it exceeds 5 the pipeline is stopped and one error event
is sent. -/
def healthCheckTick (isActive hasAudioCapture : Bool) (status : AudioStatus)
    (m : ErrorCounts) : HealthAction :=
  if isActive && hasAudioCapture then
    if !status.isInitialized then .restart
    else if !status.isCapturing then .restart
    else if isFeatureDisabled m "audio_error" "health_check" then
      .stopAndReport "Too many audio errors. Please check your microphone settings."
    else .noop
  else .noop

/-- Effect on `errorCounts` of one error passing through the coordinator's
error paths (`processAudioChunk` catch: `logError` + `handleApiError` +
`sendErrorToContentScript`; `startTranslation` catch: `handleAudioError` +
`getUserFriendlyMessage` + `logError`; the health check's own catch:
`logError`).  None of these functions touch `errorCounts` — the only
mutator, `trackError`, has no call site in the repository — so the map
passes through unchanged. -/
def coordinatorErrorEffect (m : ErrorCounts) (_e : JsError)
    (_context : String) : ErrorCounts :=
  m

/-- The `errorCounts` map after a sequence of errors has been handled by
the coordinator, starting from map `m`. -/
def errorCountsAfter (errors : List (JsError × String)) (m : ErrorCounts) :
    ErrorCounts :=
  errors.foldl (fun acc p => coordinatorErrorEffect acc p.1 p.2) m

/-- The device-in-use error a broken microphone produces
(`NotReadableError`). -/
def deviceBusyError : JsError :=
  { name := "NotReadableError", message := "Could not start audio source" }

/-- Six consecutive `AudioDeviceError` occurrences under the same context. -/
def sixAudioErrors : List (JsError × String) :=
  List.replicate 6 (deviceBusyError, "startTranslation")

/-! ## Conversation history (`src/modules/translationAPI.js`) -/

/-- One `{ role, content }` message of `conversationHistory`. -/
structure HistoryEntry where
  role : String
  content : String
deriving DecidableEq, Repr

/-- The two entries pushed by one `addToHistory` call. -/
def historyPair (originalText translatedText sourceLanguage
    targetLanguage : String) : List HistoryEntry :=
  [{ role := "user",
     content := "Original (" ++ sourceLanguage ++ "): " ++ originalText },
   { role := "assistant",
     content := "Translation (" ++ targetLanguage ++ "): " ++ translatedText }]

/-- `TranslationAPI.addToHistory` (`translationAPI.js` lines 90–104): push
the user/assistant pair; if the length then exceeds `maxHistoryLength`,
keep only the last `maxHistoryLength` entries
(`slice(-this.maxHistoryLength)`). -/
def addToHistory (history : List HistoryEntry) (maxHistoryLength : Nat)
    (originalText translatedText sourceLanguage targetLanguage : String) :
    List HistoryEntry :=
  let h := history ++
    historyPair originalText translatedText sourceLanguage targetLanguage
  if h.length > maxHistoryLength then h.drop (h.length - maxHistoryLength)
  else h

/-- The arguments of one successful non-mock `translate` call. -/
structure TranslateCall where
  text : String
  translatedText : String
  sourceLanguage : String
  targetLanguage : String
deriving Repr

/-- History effect of one successful non-mock `translate` call
(`translationAPI.js` lines 10–54): empty/whitespace-only text returns early
without touching history; otherwise the pair is appended via
`addToHistory`.  (Mock mode never calls `addToHistory`.) -/
def translateHistoryEffect (history : List HistoryEntry) (maxLen : Nat)
    (c : TranslateCall) : List HistoryEntry :=
  if trimmedEmpty c.text then history
  else addToHistory history maxLen c.text c.translatedText
    c.sourceLanguage c.targetLanguage

/-- `conversationHistory` after a sequence of successful non-mock translate
calls, starting from the freshly constructed client
(`conversationHistory = []`, `maxHistoryLength = 10`). -/
def historyAfter (calls : List TranslateCall) : List HistoryEntry :=
  calls.foldl (fun h c => translateHistoryEffect h 10 c) []

/-- Unfolding lemma: an always-failing operation run with `remaining + 1`
attempts left makes one more call than the same run started one attempt
later. -/
theorem retryFrom_fail_succ {α : Type} (op : Nat → Except JsError α)
    (cfg : RetryConfig) (e : Nat → JsError) (h : ∀ i, op i = .error (e i))
    (attempt remaining : Nat) :
    retryFrom op cfg attempt (remaining + 1) =
      let rest := retryFrom op cfg (attempt + 1) remaining
      { result := rest.result,
        attempts := rest.attempts + 1,
        delays := calculateDelay cfg attempt :: rest.delays } := by
  simp [retryFrom, h attempt]

/-- For an always-failing operation, the loop makes `remaining + 1` calls and
finally re-throws the error of the last attempt, index `attempt + remaining`. -/
theorem retryFrom_fail {α : Type} (op : Nat → Except JsError α)
    (cfg : RetryConfig) (e : Nat → JsError) (h : ∀ i, op i = .error (e i)) :
    ∀ remaining attempt,
      (retryFrom op cfg attempt remaining).result = .error (e (attempt + remaining)) ∧
      (retryFrom op cfg attempt remaining).attempts = remaining + 1 := by
  intro remaining
  induction remaining with
  | zero =>
    intro attempt
    simp [retryFrom, h attempt]
  | succ r ih =>
    intro attempt
    rw [retryFrom_fail_succ op cfg e h attempt r]
    have h1 := (ih (attempt + 1)).1
    have h2 := (ih (attempt + 1)).2
    constructor
    · simpa [Nat.add_comm, Nat.add_left_comm, Nat.add_assoc] using h1
    · simp [h2]

/-- C5: for every attempt index `i` the backoff delay equals
`min(initialDelay × multiplier^i, maxDelay)`, and with the default
configuration (`initialDelay=1000`, `multiplier=2`, `maxDelay=10000`) the
delays for attempts 0, 1, 2 are exactly `[1000, 2000, 4000]` milliseconds. -/
theorem backoff_delay_sequence :
    (∀ cfg : RetryConfig, ∀ i : Nat,
      calculateDelay cfg i = min (cfg.initialDelay * cfg.backoffMultiplier ^ i) cfg.maxDelay) ∧
    (List.range 3).map (calculateDelay RETRY_CONFIG) = [1000, 2000, 4000] := by
  refine ⟨fun cfg i => rfl, ?_⟩
  decide

/-- C4: `retryWithBackoff` with the default attempt budget `maxRetries = 3`
invokes an always-failing operation exactly 4 times in total, and the error
it finally raises is the identical error thrown by the operation's 4th
attempt (index 3), unwrapped, with name and message preserved. -/
theorem retry_exhaustion_four_attempts (op : Nat → Except JsError Unit)
    (e : Nat → JsError) (h : ∀ i, op i = .error (e i)) :
    (retryWithBackoff op RETRY_CONFIG).attempts = 4 ∧
    (retryWithBackoff op RETRY_CONFIG).result = .error (e 3) ∧
    (retryWithBackoff op RETRY_CONFIG).delays = [1000, 2000, 4000] := by
  have h30 := retryFrom_fail op RETRY_CONFIG e h 3 0
  refine ⟨h30.2, by simpa using h30.1, ?_⟩
  show (retryFrom op RETRY_CONFIG 0 3).delays = [1000, 2000, 4000]
  rw [retryFrom_fail_succ op RETRY_CONFIG e h 0 2,
      retryFrom_fail_succ op RETRY_CONFIG e h 1 1,
      retryFrom_fail_succ op RETRY_CONFIG e h 2 0]
  simp [retryFrom, h 3]
  refine ⟨rfl, rfl, rfl⟩

/-- Witness for C4 at a concrete always-failing operation. -/
theorem retry_exhaustion_four_attempts_witness :
    (retryWithBackoff (fun _ => (.error ⟨"TypeError", "boom"⟩ : Except JsError Unit))
        RETRY_CONFIG).attempts = 4 ∧
    (retryWithBackoff (fun _ => (.error ⟨"TypeError", "boom"⟩ : Except JsError Unit))
        RETRY_CONFIG).result = .error ⟨"TypeError", "boom"⟩ ∧
    (retryWithBackoff (fun _ => (.error ⟨"TypeError", "boom"⟩ : Except JsError Unit))
        RETRY_CONFIG).delays = [1000, 2000, 4000] :=
  retry_exhaustion_four_attempts (fun _ => .error ⟨"TypeError", "boom"⟩)
    (fun _ => ⟨"TypeError", "boom"⟩) (fun _ => rfl)

/-- C3 counterexample: an operation that always fails with a
401/Unauthorized authentication error is nevertheless attempted 4 times by
the pipeline's `retryWithBackoff` — not exactly once as the claim states.
The retry loop never inspects the error, so auth errors are retried like
any other. -/
theorem auth_error_retried_counterexample :
    (retryWithBackoff (fun _ => (.error authError : Except JsError Unit))
        RETRY_CONFIG).attempts = 4 ∧
    ¬ (retryWithBackoff (fun _ => (.error authError : Except JsError Unit))
        RETRY_CONFIG).attempts = 1 := by
  refine ⟨?_, ?_⟩ <;> decide

/-- C3 amended: `getRetryStrategy` does map `AUTH_ERROR` to zero retries,
but no caller ever consults it; the pipeline wraps every stage in
`retryWithBackoff`, whose loop ignores the error's type, so an operation
failing with an authentication error is attempted `maxRetries + 1 = 4`
times before the error escalates to the coordinator. -/
theorem auth_error_retry_behavior (op : Nat → Except JsError Unit)
    (e : Nat → JsError) (h : ∀ i, op i = .error (e i)) :
    getRetryStrategy "AUTH_ERROR" = { maxRetries := 0, delay := 0 } ∧
    (retryWithBackoff op RETRY_CONFIG).attempts = RETRY_CONFIG.maxRetries + 1 := by
  refine ⟨rfl, ?_⟩
  exact (retryFrom_fail op RETRY_CONFIG e h 3 0).2

/-- Witness for the amended C3 at the concrete 401 auth-failing operation. -/
theorem auth_error_retry_behavior_witness :
    getRetryStrategy "AUTH_ERROR" = { maxRetries := 0, delay := 0 } ∧
    (retryWithBackoff (fun _ => (.error authError : Except JsError Unit))
        RETRY_CONFIG).attempts = RETRY_CONFIG.maxRetries + 1 :=
  auth_error_retry_behavior (fun _ => .error authError) (fun _ => authError)
    (fun _ => rfl)

/-- C6: the direction resolver maps a detected Middle-Eastern code to
`(detected, "en")`, detected `"en"` to `("en", configured source)`, and any
other detected code to the configured `(source, target)` pair unchanged; in
particular detected `"fa"` gives `("fa", "en")` and detected `"en"` with
configured source `"ar"` gives `("en", "ar")`. -/
theorem direction_resolver_rule (s : Settings) (d : String) :
    (["ar", "fa", "tr", "he", "ku"].contains d = true →
      determineTranslationDirection s d = (d, "en")) ∧
    (d = "en" → determineTranslationDirection s d = ("en", s.sourceLanguage)) ∧
    (["ar", "fa", "tr", "he", "ku"].contains d = false → d ≠ "en" →
      determineTranslationDirection s d = (s.sourceLanguage, s.targetLanguage)) ∧
    determineTranslationDirection s "fa" = ("fa", "en") ∧
    determineTranslationDirection DEFAULT_SETTINGS "en" = ("en", "ar") := by
  refine ⟨?_, ?_, ?_, ?_, ?_⟩
  · intro hd
    unfold determineTranslationDirection
    rw [hd]
    simp
  · intro hd; subst hd; simp [determineTranslationDirection]
  · intro hd hne
    unfold determineTranslationDirection
    rw [hd]
    simp [hne]
  · simp [determineTranslationDirection]
  · simp [determineTranslationDirection, DEFAULT_SETTINGS]

/-- Witness for C6 at detected `"tr"` and the default settings. -/
theorem direction_resolver_rule_witness :
    determineTranslationDirection DEFAULT_SETTINGS "tr" = ("tr", "en") :=
  (direction_resolver_rule DEFAULT_SETTINGS "tr").1 (by decide)

/-- C7 (code bug): the Hebrew branch of `detectLanguage` is guarded by the
Arabic-script class, which excludes the Hebrew block U+0590–U+05FF, so a
string consisting solely of Hebrew-block characters — here the failing
input `"שלום"` — is classified `"en"`, not `"he"` as the claim states.
The Arabic, Persian and Turkish clauses of the claim do hold on the
corresponding mock inputs, shown alongside. -/
theorem hebrew_detection_dead_branch :
    "שלום".data.all (fun c => 0x0590 ≤ c.toNat && c.toNat ≤ 0x05FF) = true ∧
    "שלום".data.isEmpty = false ∧
    detectLanguage "שלום" = "en" ∧
    detectLanguage "שלום" ≠ "he" ∧
    detectLanguage "مرحبا، كيف حالك؟" = "ar" ∧
    detectLanguage "سلام، چطور هستید؟" = "fa" ∧
    detectLanguage "Merhaba, nasılsın?" = "tr" ∧
    detectLanguage "Hello, how are you?" = "en" := by
  refine ⟨?_, ?_, ?_, ?_, ?_, ?_, ?_, ?_⟩ <;> decide

/-- C8: `needsTranslation` returns `false` exactly when the text is
empty/whitespace-only, or the target language is `"en"` and every character
of the text is in the English-pattern class (ASCII letters, whitespace, and
the basic punctuation set); for every other target and non-whitespace text
it returns `true`, so translation always runs.  And whenever
`needsTranslation` is `false` for the resolved target, the coordinator
skips translation, synthesis, playback and result emission entirely. -/
theorem translation_skip_policy :
    (∀ text target : String,
      needsTranslation text target = false ↔
        (trimmedEmpty text = true ∨
          (target = "en" ∧ text.data.all isEnglishPatternChar = true))) ∧
    (∀ (s : Settings) (o : StageOutcomes) (t : Transcription),
      o.transcription = .ok t → trimmedEmpty t.text = false →
      needsTranslation t.text (resolveDirection s t).2 = false →
      (processAudioChunk s o).events = [] ∧
      (processAudioChunk s o).logs = [] ∧
      (processAudioChunk s o).playbackVolume = none) := by
  constructor
  · intro text target
    by_cases h1 : trimmedEmpty text
    · simp [needsTranslation, h1]
    · by_cases h2 : target = "en"
      · subst h2
        have hne : text.data.isEmpty = false := by
          cases hD : text.data.isEmpty
          · rfl
          · exfalso
            apply h1
            unfold trimmedEmpty
            rw [List.isEmpty_eq_true.mp hD]
            rfl
        simp [needsTranslation, h1, englishPatternTest, hne]
      · simp [needsTranslation, h1, h2]
  · intro s o t ht hne hnt
    refine ⟨?_, ?_, ?_⟩ <;>
      simp [processAudioChunk, processAudioChunkAt, ht, hne, hnt]

/-- Witness for C8: Arabic text with target `"en"` needs translation, ASCII
English text with target `"en"` does not, English text with target `"ar"`
still does, and an already-English transcript makes the coordinator skip
every later stage and emit nothing. -/
theorem translation_skip_policy_witness :
    needsTranslation "مرحبا" "en" = true ∧
    needsTranslation "Hello, how are you?" "en" = false ∧
    needsTranslation "Hello, how are you?" "ar" = true ∧
    (processAudioChunk DEFAULT_SETTINGS englishSkipOutcomes).events = [] := by
  refine ⟨?_, ?_, ?_, ?_⟩
  · cases hv : needsTranslation "مرحبا" "en"
    · exact absurd ((translation_skip_policy.1 "مرحبا" "en").mp hv) (by decide)
    · rfl
  · exact (translation_skip_policy.1 "Hello, how are you?" "en").mpr (by decide)
  · cases hv : needsTranslation "Hello, how are you?" "ar"
    · exact absurd ((translation_skip_policy.1 "Hello, how are you?" "ar").mp hv)
        (by decide)
    · rfl
  · exact (translation_skip_policy.2 DEFAULT_SETTINGS englishSkipOutcomes
      { text := "Hello, how are you?", language := "en", confidence := 1 }
      rfl (by decide) (by decide)).1

/-- C1 counterexample: with transcription, translation and synthesis all
succeeding and playback failing, the run emits one ERROR event and no
success result event — `playAudio` rethrows, the top-level catch of
`processAudioChunk` classifies the error and sends `TRANSLATION_ERROR`,
and the `sendResultsToContentScript` call after the playback step is never
reached.  This contradicts the claimed one-success-event/no-error-event
behavior. -/
theorem playback_failure_counterexample :
    (processAudioChunk DEFAULT_SETTINGS playbackFailOutcomes).events =
      [SinkEvent.error "An unexpected error occurred. Please try again"] ∧
    (processAudioChunk DEFAULT_SETTINGS playbackFailOutcomes).logs =
      [("processAudioChunk", "Audio playback failed: decode error")] := by
  refine ⟨?_, ?_⟩ <;> decide

/-- C1 amended: once transcription, translation and synthesis succeed, the
run emits exactly one event, but which one depends on playback: on playback
success, one success result event with the documented fields and no error
event or log entry; on playback failure, the playback error reaches the
catch-all, which records a log entry and emits one error event — the
success event is suppressed rather than emitted. -/
theorem playback_failure_behavior (s : Settings) (o : StageOutcomes)
    (t : Transcription) (tr : TranslationResult)
    (ht : o.transcription = .ok t)
    (hne : trimmedEmpty t.text = false)
    (hnt : needsTranslation t.text (resolveDirection s t).2 = true)
    (htr : o.translation = .ok tr)
    (hs : o.synthesis = .ok ()) :
    (processAudioChunk s o).events =
      (match o.playback with
       | .ok _ => [SinkEvent.result
           { originalText := t.text, translatedText := tr.translatedText,
             sourceLanguage := (resolveDirection s t).1,
             targetLanguage := (resolveDirection s t).2,
             confidence := t.confidence,
             bidirectional := s.bidirectionalMode }]
       | .error e => [SinkEvent.error (getUserFriendlyMessage (handleApiError e))]) ∧
    (processAudioChunk s o).logs =
      (match o.playback with
       | .ok _ => []
       | .error e => [("processAudioChunk", e.message)]) := by
  cases hp : o.playback with
  | ok u =>
    cases u
    constructor <;>
      simp [processAudioChunk, processAudioChunkAt, ht, hne, hnt, htr, hs, hp,
        catchChunkError]
  | error e =>
    constructor <;>
      simp [processAudioChunk, processAudioChunkAt, ht, hne, hnt, htr, hs, hp,
        catchChunkError]

/-- Witness for the amended C1 at the concrete playback-failing run. -/
theorem playback_failure_behavior_witness :
    (processAudioChunk DEFAULT_SETTINGS playbackFailOutcomes).events =
      [SinkEvent.error "An unexpected error occurred. Please try again"] ∧
    (processAudioChunk DEFAULT_SETTINGS playbackFailOutcomes).logs =
      [("processAudioChunk", "Audio playback failed: decode error")] := by
  have h := playback_failure_behavior DEFAULT_SETTINGS playbackFailOutcomes
    { text := "مرحبا، كيف حالك؟", language := "ar", confidence := 1 }
    { translatedText := "Hello, how are you?", confidence := 9/10,
      sourceLanguage := "ar", targetLanguage := "en" }
    rfl (by decide) (by decide) rfl rfl
  exact ⟨h.1.trans (by decide), h.2.trans (by decide)⟩

/-- C9 counterexample: the same fully successful per-chunk run produces a
DIFFERENT observable outcome when `updateSettings` lands after block 1
(while the translation request is awaited): the emitted result carries
`bidirectional := true` from the new snapshot and playback uses the new
volume, whereas without the update it carries `bidirectional := false` and
the old volume — the in-flight segment is not processed under an immutable
snapshot. -/
theorem midflight_update_counterexample :
    processAudioChunkAt (fun _ => DEFAULT_SETTINGS) allOkOutcomes ≠
      processAudioChunkAt
        (settingsSchedule DEFAULT_SETTINGS
          (updateSettings DEFAULT_SETTINGS midflightPatch) 1)
        allOkOutcomes := by
  decide

/-- C9 amended: `processAudioChunk` re-reads `this.currentSettings` at each
stage, so an update landing after the direction/translation reads (block 1)
leaves the text and language fields of the result unchanged, but the
emitted `bidirectional` flag comes from whichever snapshot is current at
emit time (block 4) and the playback volume from the snapshot current at
playback time (block 3). -/
theorem midflight_update_behavior (s0 s1 : Settings) (k : Nat)
    (o : StageOutcomes) (t : Transcription) (tr : TranslationResult)
    (hk : 1 ≤ k)
    (ht : o.transcription = .ok t)
    (hne : trimmedEmpty t.text = false)
    (hnt : needsTranslation t.text (resolveDirection s0 t).2 = true)
    (htr : o.translation = .ok tr)
    (hs : o.synthesis = .ok ())
    (hp : o.playback = .ok ()) :
    (processAudioChunkAt (settingsSchedule s0 s1 k) o).events =
      [SinkEvent.result
        { originalText := t.text, translatedText := tr.translatedText,
          sourceLanguage := (resolveDirection s0 t).1,
          targetLanguage := (resolveDirection s0 t).2,
          confidence := t.confidence,
          bidirectional := (if 4 ≤ k then s0 else s1).bidirectionalMode }] ∧
    (processAudioChunkAt (settingsSchedule s0 s1 k) o).playbackVolume =
      some (clampVolume ((if 3 ≤ k then s0 else s1).volume)) := by
  constructor <;>
    simp [processAudioChunkAt, ht, hne, htr, hs, hp, hnt, settingsSchedule, hk]

/-- Witness for the amended C9: the update lands during the translation
await (`k = 1`), so the result carries the new bidirectional flag and
playback the new volume. -/
theorem midflight_update_behavior_witness :
    (processAudioChunkAt
      (settingsSchedule DEFAULT_SETTINGS
        (updateSettings DEFAULT_SETTINGS midflightPatch) 1)
      allOkOutcomes).events =
      [SinkEvent.result
        { originalText := "مرحبا، كيف حالك؟",
          translatedText := "Hello, how are you?",
          sourceLanguage := "ar", targetLanguage := "en",
          confidence := 1, bidirectional := true }] ∧
    (processAudioChunkAt
      (settingsSchedule DEFAULT_SETTINGS
        (updateSettings DEFAULT_SETTINGS midflightPatch) 1)
      allOkOutcomes).playbackVolume = some (1/4) := by
  have h := midflight_update_behavior DEFAULT_SETTINGS
    (updateSettings DEFAULT_SETTINGS midflightPatch) 1 allOkOutcomes
    { text := "مرحبا، كيف حالك؟", language := "ar", confidence := 1 }
    { translatedText := "Hello, how are you?", confidence := 9/10,
      sourceLanguage := "ar", targetLanguage := "en" }
    (by decide) rfl (by decide) (by decide) rfl rfl rfl
  refine ⟨h.1.trans ?_, h.2.trans ?_⟩
  · norm_num [resolveDirection, determineTranslationDirection, DEFAULT_SETTINGS,
      detectLanguage, updateSettings, midflightPatch]
    decide
  · norm_num [clampVolume, updateSettings, midflightPatch, DEFAULT_SETTINGS]

/-- The coordinator's error handling never changes the counter map. -/
theorem errorCountsAfter_id (errors : List (JsError × String))
    (m : ErrorCounts) : errorCountsAfter errors m = m := by
  induction errors generalizing m with
  | nil => rfl
  | cons e es ih => exact ih m

/-- C2 counterexample: after six consecutive audio-device errors under the
same context, the error-counter map is still empty — no code path calls
`trackError` — so the next scheduled health-check tick (healthy capture
status, pipeline active) does nothing: it neither stops the pipeline nor
emits a terminal error event, contradicting the claim. -/
theorem health_monitor_counterexample :
    handleAudioError deviceBusyError =
      { type := "DEVICE_ERROR",
        message := "Microphone is being used by another application",
        action := "close_other_apps" } ∧
    errorCountsAfter sixAudioErrors [] = [] ∧
    healthCheckTick true true { isInitialized := true, isCapturing := true }
      (errorCountsAfter sixAudioErrors []) = HealthAction.noop ∧
    HealthAction.noop ≠ HealthAction.stopAndReport
      "Too many audio errors. Please check your microphone settings." := by
  refine ⟨?_, ?_, ?_, ?_⟩ <;> decide

/-- C2 amended: the health check consults only the single counter keyed
`audio_error-health_check`; were that counter above 5 with a healthy
capture status, the tick would stop the pipeline and emit exactly one
terminal error event (and once stopped, `isActive` is false, so every later
tick is a no-op — no automatic restart).  But no code path ever calls
`trackError`: the coordinator's error handling leaves the counter map
unchanged, so the counter never increments and the stop path is
unreachable in operation. -/
theorem health_monitor_threshold_behavior (st : AudioStatus)
    (m : ErrorCounts) (errors : List (JsError × String))
    (h1 : st.isInitialized = true) (h2 : st.isCapturing = true)
    (h3 : countFor m "audio_error-health_check" > 5) :
    healthCheckTick true true st m = HealthAction.stopAndReport
      "Too many audio errors. Please check your microphone settings." ∧
    healthCheckTick false true st m = HealthAction.noop ∧
    errorCountsAfter errors m = m := by
  refine ⟨?_, rfl, errorCountsAfter_id errors m⟩
  simp [healthCheckTick, h1, h2, isFeatureDisabled, h3]

/-- Witness for the amended C2: a counter map holding the key at 6. -/
theorem health_monitor_threshold_behavior_witness :
    healthCheckTick true true { isInitialized := true, isCapturing := true }
      [("audio_error-health_check", 6)] = HealthAction.stopAndReport
      "Too many audio errors. Please check your microphone settings." ∧
    healthCheckTick false true { isInitialized := true, isCapturing := true }
      [("audio_error-health_check", 6)] = HealthAction.noop ∧
    errorCountsAfter sixAudioErrors [("audio_error-health_check", 6)] =
      [("audio_error-health_check", 6)] :=
  health_monitor_threshold_behavior
    { isInitialized := true, isCapturing := true }
    [("audio_error-health_check", 6)] sixAudioErrors rfl rfl (by decide)

/-- One `addToHistory` call with the default bound never leaves more than
10 entries. -/
theorem addToHistory_length_le_ten (history : List HistoryEntry)
    (o tr sl tl : String) :
    (addToHistory history 10 o tr sl tl).length ≤ 10 := by
  unfold addToHistory
  by_cases hc :
      (history ++ historyPair o tr sl tl).length > 10
  · simp only [hc, if_true, List.length_drop]
    omega
  · simp only [hc, if_false]
    omega

/-- The fold preserves the 10-entry bound. -/
theorem historyFold_le_ten (calls : List TranslateCall) :
    ∀ h : List HistoryEntry, h.length ≤ 10 →
      (calls.foldl (fun h c => translateHistoryEffect h 10 c) h).length ≤ 10 := by
  induction calls with
  | nil => intro h hh; exact hh
  | cons c cs ih =>
    intro h hh
    show (cs.foldl (fun h c => translateHistoryEffect h 10 c)
      (translateHistoryEffect h 10 c)).length ≤ 10
    apply ih
    unfold translateHistoryEffect
    by_cases ht : trimmedEmpty c.text
    · simpa [ht] using hh
    · simpa [ht] using addToHistory_length_le_ten h c.text c.translatedText
        c.sourceLanguage c.targetLanguage

/-- C10: after any sequence of successful non-mock translate calls the
conversation history holds at most 10 entries (the default
`maxHistoryLength`), and each `addToHistory` step equals appending the
newest user/assistant pair and then dropping exactly the oldest entries in
excess of the bound. -/
theorem conversation_history_bounded (calls : List TranslateCall)
    (h : List HistoryEntry) (o tr sl tl : String) :
    (historyAfter calls).length ≤ 10 ∧
    addToHistory h 10 o tr sl tl =
      (h ++ historyPair o tr sl tl).drop ((h.length + 2) - 10) := by
  constructor
  · exact historyFold_le_ten calls [] (by simp)
  · unfold addToHistory
    have hlen : (h ++ historyPair o tr sl tl).length = h.length + 2 := by
      simp [historyPair]
    by_cases hc : (h ++ historyPair o tr sl tl).length > 10
    · rw [hlen] at hc
      simp only [hlen, hc, if_true]
    · simp only [hc, if_false]
      rw [hlen] at hc
      have : h.length + 2 - 10 = 0 := by omega
      rw [this, List.drop_zero]

end P2E

